import Mathlib

/-!
Shallow embedding of the Hedera JSON-RPC relay SDKClient
(packages/relay/src/lib/clients/sdkClient.ts, given as src/unnamed/part_000).

JavaScript strings are modeled as lists of characters (JStr).  Values that
may be the JavaScript undefined are modeled with Option.  Promise-returning
methods that perform a single network round-trip are modeled as pure
functions taking the round-trip outcome (an Except value) as an argument.
Machine numbers occurring here (tinybar amounts, fee components, status
codes) are modeled as Int / Nat; the one floating-point computation
(Math.ceil of a ratio) is modeled exactly over the rationals.
-/

namespace HederaRelay

/-- A JavaScript string, modeled as its list of characters. -/
abbrev JStr := List Char

/-- Embeds the Hedera SDK Status object; only the numeric _code field is
relevant to SDKClient. -/
structure Status where
  code : Nat
deriving DecidableEq, Repr

/-- Status.Success has protobuf response code 22. -/
def statusSuccess : Status := ⟨22⟩

/-- Status.Unknown has protobuf response code 21. -/
def statusUnknown : Status := ⟨21⟩

/-- Embeds a JavaScript error value as SDKClient inspects it: an optional
native status object, a message, a constructor name and a stack. -/
structure JsErr where
  status : Option Status
  message : String
  name : String
  stack : String
deriving DecidableEq, Repr

/-- Embeds the expression (new Error(msg)): a plain Error with no status
field, carrying only the message; the native stack and type are discarded
(the fresh local stack is modeled as the empty string). -/
def mkError (msg : String) : JsErr :=
  { status := none, message := msg, name := "Error", stack := "" }

/-- Embeds the JavaScript truthiness test (e.status && e.status._code):
true exactly when the error has a status object with a nonzero code. -/
def errStatusTruthy (e : JsErr) : Bool :=
  match e.status with
  | some s => s.code != 0
  | none => false

/-! ### Address normalization helpers (source lines 360-375) -/

/-- Embeds input.startsWith('0x'). -/
def startsWith0x (s : JStr) : Bool :=
  s.take 2 == ['0', 'x']

/-- Embeds SDKClient.prepend0x: prepends a leading 0x if there is not one. -/
def prepend0x (s : JStr) : JStr :=
  if startsWith0x s then s else '0' :: 'x' :: s

/-- Embeds SDKClient.prune0x: removes the leading 0x if there is one
(substring(2) drops the first two characters). -/
def prune0x (s : JStr) : JStr :=
  if startsWith0x s then s.drop 2 else s

/-! ### Fee schedule and exchange rate data model -/

/-- Modelled from the spec: the designated contract-call functionality code
(constants.ETH_FUNCTIONALITY_CODE comes from a constants module that is not
part of the given sources; the spec fixes no numeric value, and none of the
claims depends on the value, only on the lookup being keyed by it). -/
def ETH_FUNCTIONALITY_CODE : Nat := 84

/-- Modelled from the spec: the constant fallback gas fee
(constants.DEFAULT_TINY_BAR_GAS, from the same absent constants module; the
claims depend only on its existence as a fixed fabricated value, not on the
value itself). -/
def DEFAULT_TINY_BAR_GAS : Int := 72

/-- Embeds the SDK HederaFunctionality wrapper; only _code is inspected. -/
structure HederaFunctionality where
  code : Nat
deriving DecidableEq, Repr

/-- Embeds the SDK FeeComponents; only contractTransactionGas is used, which
may be undefined. -/
structure FeeComponents where
  contractTransactionGas : Option Int
deriving DecidableEq, Repr

/-- Embeds one element of a schedule's fees array; only servicedata is used,
which may be undefined. -/
structure FeeData where
  servicedata : Option FeeComponents
deriving DecidableEq, Repr

/-- Embeds one entry of the transactionFeeSchedule array: an optional
functionality tag and an optional fees array. -/
structure TransactionFeeSchedule where
  hederaFunctionality : Option HederaFunctionality
  fees : Option (List FeeData)
deriving DecidableEq, Repr

/-- Embeds the current section of the parsed FeeSchedules proto. -/
structure FeeScheduleSection where
  transactionFeeSchedule : Option (List TransactionFeeSchedule)
deriving DecidableEq, Repr

/-- Embeds the parsed FeeSchedules proto; current may be nil. -/
structure FeeSchedules where
  current : Option FeeScheduleSection
deriving DecidableEq, Repr

/-- Embeds one SDK ExchangeRate: hbar-equivalent and cent-equivalent units. -/
structure ExchangeRateEntry where
  hbars : Int
  cents : Int
deriving DecidableEq, Repr

/-- Embeds the SDK ExchangeRates pair; only currentRate is consumed here. -/
structure ExchangeRates where
  currentRate : ExchangeRateEntry
  nextRate : ExchangeRateEntry
deriving DecidableEq, Repr

/-- Embeds SDKClient.convertGasPriceToTinyBars (source lines 214-224): if the
fee components or their contractTransactionGas are undefined it returns the
DEFAULT_TINY_BAR_GAS constant, otherwise
Math.ceil((gas / 1000) * (currentRate.hbars / currentRate.cents)), modeled
exactly over the rationals. -/
def convertGasPriceToTinyBars (feeComponents : Option FeeComponents)
    (exchangeRates : ExchangeRates) : Int :=
  match feeComponents with
  | none => DEFAULT_TINY_BAR_GAS
  | some fc =>
    match fc.contractTransactionGas with
    | none => DEFAULT_TINY_BAR_GAS
    | some gas =>
      Int.ceil ((gas : ℚ) / 1000 *
        ((exchangeRates.currentRate.hbars : ℚ) / (exchangeRates.currentRate.cents : ℚ)))

/-- The message of the error thrown when the FeeSchedules proto lacks the
current section or its transactionFeeSchedule. -/
def invalidFeeScheduleMsg : String := "Invalid FeeSchedules proto format"

/-- The message of the error thrown when no schedule entry carries the
contract-call functionality code with defined fees. -/
def codeNotFoundMsg : String :=
  toString ETH_FUNCTIONALITY_CODE ++ " code not found in feeSchedule"

/-- Embeds the runtime TypeError raised by schedule.fees[0].servicedata when
the fees array is empty (fees[0] is undefined). -/
def feesIndexTypeError : JsErr :=
  { status := none,
    message := "Cannot read properties of undefined (reading servicedata)",
    name := "TypeError", stack := "" }

/-- Embeds the for-loop of getTinyBarGasFee over the transactionFeeSchedule
array (source lines 165-174): the first entry whose
hederaFunctionality?._code equals ETH_FUNCTIONALITY_CODE and whose fees array
is defined returns convertGasPriceToTinyBars of fees[0].servicedata;
if no entry qualifies the loop falls through to the not-found throw. -/
def gasFeeLoop (exchangeRates : ExchangeRates) :
    List TransactionFeeSchedule → Except JsErr Int
  | [] => .error (mkError codeNotFoundMsg)
  | s :: rest =>
    match s.hederaFunctionality, s.fees with
    | some f, some fds =>
      if f.code = ETH_FUNCTIONALITY_CODE then
        match fds with
        | [] => .error feesIndexTypeError
        | fd :: _ => .ok (convertGasPriceToTinyBars fd.servicedata exchangeRates)
      else gasFeeLoop exchangeRates rest
    | some _, none => gasFeeLoop exchangeRates rest
    | none, _ => gasFeeLoop exchangeRates rest

/-- Embeds SDKClient.getTinyBarGasFee (source lines 159-175) as a pure
function of the fetched FeeSchedules and ExchangeRates: throws the
invalid-format error when current or current.transactionFeeSchedule is
missing, otherwise scans the schedule via gasFeeLoop. -/
def getTinyBarGasFee (feeSchedules : FeeSchedules)
    (exchangeRates : ExchangeRates) : Except JsErr Int :=
  match feeSchedules.current with
  | none => .error (mkError invalidFeeScheduleMsg)
  | some cur =>
    match cur.transactionFeeSchedule with
    | none => .error (mkError invalidFeeScheduleMsg)
    | some tfs => gasFeeLoop exchangeRates tfs

/-! ### Metrics recorder and network operation executor -/

/-- SDKClient.transactionMode. -/
def transactionMode : String := "TRANSACTION"

/-- SDKClient.queryMode. -/
def queryMode : String := "QUERY"

/-- One tuple of arguments fed to SDKClient.captureMetrics: mode, the
operation type name, the status argument (the raw status object, possibly
the JavaScript undefined) and the cost argument (possibly undefined). -/
structure Observation where
  mode : String
  type : String
  status : Option Status
  cost : Option Int
deriving DecidableEq, Repr

/-- One primitive mutation of the metric registry. -/
inductive MetricEvent
  | histObserve (mode : String) (type : String) (status : Option Status) (value : Int)
  | gaugeDec (mode : String) (type : String) (amount : Option Int)
deriving DecidableEq, Repr

/-- Embeds SDKClient.captureMetrics (source lines 325-333): the histogram
labeled (mode, type, status) observes the cost coerced through the ternary
(cost ? cost : 0), so undefined and 0 both become 0, while the operator
balance gauge labeled (mode, type) is decremented by the raw cost argument. -/
def captureMetrics (mode : String) (type : String) (status : Option Status)
    (cost : Option Int) : List MetricEvent :=
  let resolvedCost : Int :=
    match cost with
    | none => 0
    | some c => if c == 0 then 0 else c
  [MetricEvent.histObserve mode type status resolvedCost,
   MetricEvent.gaugeDec mode type cost]

/-- The observable state of a Query object at execution time: its
constructor name and its _queryPayment (in tinybars, undefined if unset). -/
structure QueryState where
  name : String
  queryPayment : Option Int
deriving DecidableEq, Repr

/-- Embeds SDKClient.executeQuery (source lines 226-255) as a pure function
of the query state and the outcome of query.execute(client).  Returns the
list of captureMetrics argument tuples recorded and the final result.  On
success it records (QUERY, name, Status.Success, _queryPayment) and returns
the response; on failure it records (QUERY, name, e.status, _queryPayment)
and then rethrows new Error(e.message) when e.status._code is truthy, else
rethrows the original error unchanged. -/
def executeQuery {α : Type} (q : QueryState) (result : Except JsErr α) :
    List Observation × Except JsErr α :=
  match result with
  | .ok v =>
    ([{ mode := queryMode, type := q.name, status := some statusSuccess,
        cost := q.queryPayment }], .ok v)
  | .error e =>
    ([{ mode := queryMode, type := q.name, status := e.status,
        cost := q.queryPayment }],
     if errStatusTruthy e then .error (mkError e.message) else .error e)

/-- Embeds SDKClient.executeTransaction (source lines 257-276) as a pure
function of the outcome of transaction.execute(clientMain).  No metric
observation is recorded in either branch; a failure whose status code is
truthy is rethrown as new Error(e.message), any other failure is rethrown
unchanged. -/
def executeTransaction {α : Type} (transactionType : String)
    (result : Except JsErr α) : List Observation × Except JsErr α :=
  match result with
  | .ok v => ([], .ok v)
  | .error e =>
    ([], if errStatusTruthy e then .error (mkError e.message) else .error e)

/-- The fields of a TransactionRecord consumed by SDKClient: the receipt
status and the assessed transaction fee in tinybars. -/
structure TransactionRecord where
  receiptStatus : Status
  transactionFee : Int
deriving DecidableEq, Repr

/-- The observable state of a TransactionResponse passed to
executeGetTransactionRecord: its JSON.stringify rendering (used only in the
invalid-format message) and its getRecord member, which is absent (none)
when the response object does not support record retrieval, and otherwise
carries the outcome of resp.getRecord(clientMain). -/
structure TransactionResponseState where
  jsonRepr : String
  getRecord : Option (Except JsErr TransactionRecord)

/-- Embeds SDKClient.executeGetTransactionRecord (source lines 294-323).
If resp.getRecord is falsy, throws new Error('Invalid response format,
expected record availability: ' + JSON.stringify(resp)); that plain error
has no status, so the catch rethrows it unchanged and no metric is recorded.
On a successful record retrieval, records (TRANSACTION, transactionName,
receipt.status, transactionFee) and returns the record.  On a retrieval
failure with truthy status code, records (TRANSACTION, transactionName,
e.status, 0) and rethrows new Error(e.message); other failures are rethrown
unchanged with no metric. -/
def executeGetTransactionRecord (resp : TransactionResponseState)
    (transactionName : String) : List Observation × Except JsErr TransactionRecord :=
  match resp.getRecord with
  | none =>
    ([], .error (mkError
      ("Invalid response format, expected record availability: " ++ resp.jsonRepr)))
  | some (.ok record) =>
    ([{ mode := transactionMode, type := transactionName,
        status := some record.receiptStatus, cost := some record.transactionFee }],
     .ok record)
  | some (.error e) =>
    if errStatusTruthy e then
      ([{ mode := transactionMode, type := transactionName,
          status := e.status, cost := some 0 }],
       .error (mkError e.message))
    else ([], .error e)

/-! ### Contract call query construction -/

/-- Embeds an SDK AccountId as far as this client observes it. -/
structure AccountId where
  num : Nat
deriving DecidableEq, Repr

/-- Embeds the two ContractId construction paths used by
submitContractCallQuery. -/
inductive ContractIdRef
  | fromSolidityAddress (addr : JStr)
  | fromEvmAddress (shard : Nat) (realm : Nat) (addr : JStr)
deriving DecidableEq, Repr

/-- The observable state of the ContractCallQuery built by
submitContractCallQuery, at the moment it is handed to executeQuery. -/
structure ContractCallQueryState where
  contractId : ContractIdRef
  functionParametersHex : JStr
  gas : Int
  paymentTransactionId : Option AccountId
  queryPayment : Option Int
deriving DecidableEq, Repr

/-- Embeds the eleven-zero test contract.startsWith("00000000000"). -/
def startsWithElevenZeros (s : JStr) : Bool :=
  s.take 11 == List.replicate 11 '0'

/-- Embeds SDKClient.submitContractCallQuery (source lines 191-212) up to
the executeQuery call: prunes the to and data strings, picks
ContractId.fromSolidityAddress when the pruned to-address starts with eleven
zero characters and ContractId.fromEvmAddress(0, 0, _) otherwise, attaches a
payment transaction id when an operator account is set, and sets the query
payment to the cost obtained from the prior contractCallQuery.getCost
round-trip (passed here as the cost argument). -/
def submitContractCallQuery (toAddr : JStr) (data : JStr) (gas : Int)
    (operatorAccountId : Option AccountId) (cost : Int) : ContractCallQueryState :=
  let contract := prune0x toAddr
  let callData := prune0x data
  let contractId :=
    if startsWithElevenZeros contract then ContractIdRef.fromSolidityAddress contract
    else ContractIdRef.fromEvmAddress 0 0 contract
  { contractId := contractId,
    functionParametersHex := callData,
    gas := gas,
    paymentTransactionId := operatorAccountId,
    queryPayment := some cost }

/-- The gas price formula as the spec words it:
ceil((gasComponent / 1000) * (currentRate.hbars / currentRate.cents)),
to be compared with the convertGasPriceToTinyBars embedding. -/
def gasPriceSpecFormula (gasComponent : Int) (hbars : Int) (cents : Int) : Int :=
  Int.ceil ((gasComponent : ℚ) / 1000 * ((hbars : ℚ) / (cents : ℚ)))

/-! ### Sample data for concrete instantiations -/

/-- A sample exchange rate pair with current rate hbars 1, cents 12. -/
def sampleRates : ExchangeRates := ⟨⟨1, 12⟩, ⟨1, 12⟩⟩

/-- A fetched fee schedule whose single entry carries the contract-call
functionality code and a defined fees array whose first element has an
undefined servicedata. -/
def missingServicedataSchedules : FeeSchedules :=
  ⟨some ⟨some [⟨some ⟨ETH_FUNCTIONALITY_CODE⟩, some [⟨none⟩]⟩]⟩⟩

/-- A sample native failure carrying status code 10, the protobuf code of
INSUFFICIENT_PAYER_BALANCE. -/
def sampleNativeErr : JsErr :=
  { status := some ⟨10⟩,
    message := "transaction failed precheck with status INSUFFICIENT_PAYER_BALANCE",
    name := "StatusError", stack := "native stack" }

/-- A sample failure carrying no native status, as raised by transport-level
problems. -/
def sampleStatuslessErr : JsErr :=
  { status := none, message := "socket timeout", name := "Error", stack := "stack" }

/-- A sample query state with a nonzero assessed payment of 5 tinybars. -/
def samplePaidQuery : QueryState := ⟨"ContractCallQuery", some 5⟩

/-- A sample transaction response whose record retrieval fails with the
sample native error. -/
def sampleFailedRecordResp : TransactionResponseState :=
  ⟨"resp json", some (.error sampleNativeErr)⟩

/-- A sample to-address whose pruned form starts with eleven zeros. -/
def sampleSolidityAddr : JStr :=
  '0' :: 'x' :: (List.replicate 11 '0' ++ ['1', '2', '3'])

/-! ## Theorems -/

theorem startsWith0x_eq_true_iff (s : JStr) :
    startsWith0x s = true ↔ s.take 2 = ['0', 'x'] := by
  simp [startsWith0x]

theorem startsWith0x_decompose (s : JStr) (h : startsWith0x s = true) :
    s = '0' :: 'x' :: s.drop 2 := by
  rw [startsWith0x_eq_true_iff] at h
  conv_lhs => rw [← List.take_append_drop 2 s]
  rw [h]
  rfl

theorem startsWith0x_cons (t : JStr) : startsWith0x ('0' :: 'x' :: t) = true := by
  rfl

theorem prune0x_cons (t : JStr) : prune0x ('0' :: 'x' :: t) = t := by
  rfl

/-- C10: prepend0x is idempotent: for every string s,
prepend0x (prepend0x s) = prepend0x s, since the result of prepend0x always
starts with 0x. -/
theorem prepend0x_idempotent (s : JStr) :
    prepend0x (prepend0x s) = prepend0x s := by
  by_cases h : startsWith0x s = true
  · simp [prepend0x, h]
  · simp [prepend0x, h, startsWith0x_cons]

/-- C6 counterexample: for the string "0x0xab" (whose pruned form itself
starts with 0x), prepend0x (prune0x x) differs from prepend0x x, refuting
the round-trip equation for arbitrary strings with a 0x prefix. -/
theorem prepend0x_prune0x_roundtrip_cex :
    prepend0x (prune0x (['0', 'x', '0', 'x', 'a', 'b'] : JStr)) ≠
      prepend0x (['0', 'x', '0', 'x', 'a', 'b'] : JStr) := by
  decide

/-- C6 amended: for every string s, prune0x (prepend0x s) = prune0x s holds
unconditionally, and prepend0x (prune0x s) = prepend0x s holds whenever the
pruned form of s does not itself start with 0x (true of every hex address,
with or without a single 0x prefix). -/
theorem prune0x_prepend0x_roundtrip (s : JStr) :
    (startsWith0x (prune0x s) = false →
      prepend0x (prune0x s) = prepend0x s) ∧
    prune0x (prepend0x s) = prune0x s := by
  by_cases hs : startsWith0x s = true
  · obtain ⟨t, rfl⟩ : ∃ t, s = '0' :: 'x' :: t :=
      ⟨s.drop 2, startsWith0x_decompose s hs⟩
    refine ⟨?_, ?_⟩
    · intro h
      rw [prune0x_cons] at h ⊢
      simp [prepend0x, h, startsWith0x_cons]
    · simp [prepend0x, startsWith0x_cons, prune0x_cons]
  · have hs' : startsWith0x s = false := by simpa using hs
    refine ⟨?_, ?_⟩
    · intro h
      simp [prune0x, hs']
    · simp [prepend0x, prune0x, hs', startsWith0x_cons]

/-- C6 witness: both round-trip equations, instantiated at the concrete
address "0xab". -/
theorem prune0x_prepend0x_roundtrip_witness :
    prepend0x (prune0x (['0', 'x', 'a', 'b'] : JStr)) =
      prepend0x (['0', 'x', 'a', 'b'] : JStr) ∧
    prune0x (prepend0x (['0', 'x', 'a', 'b'] : JStr)) =
      prune0x (['0', 'x', 'a', 'b'] : JStr) :=
  ⟨(prune0x_prepend0x_roundtrip ['0', 'x', 'a', 'b']).1 (by decide),
   (prune0x_prepend0x_roundtrip ['0', 'x', 'a', 'b']).2⟩

/-- C2: whenever the fee components carry a defined contractTransactionGas,
convertGasPriceToTinyBars equals the spec formula
ceil((gas / 1000) * (currentRate.hbars / currentRate.cents)); at
contractTransactionGas 853000 and current rate hbars 1, cents 12 the result
is 72; and the computation is deterministic (a pure function of its
arguments). -/
theorem convertGasPriceToTinyBars_correct (fc : FeeComponents) (gas : Int)
    (rates : ExchangeRates) (h : fc.contractTransactionGas = some gas) :
    convertGasPriceToTinyBars (some fc) rates =
      gasPriceSpecFormula gas rates.currentRate.hbars rates.currentRate.cents ∧
    convertGasPriceToTinyBars (some ⟨some 853000⟩) ⟨⟨1, 12⟩, ⟨1, 12⟩⟩ = 72 ∧
    convertGasPriceToTinyBars (some fc) rates =
      convertGasPriceToTinyBars (some fc) rates := by
  refine ⟨?_, ?_, rfl⟩
  · simp [convertGasPriceToTinyBars, h, gasPriceSpecFormula]
  · show Int.ceil ((853000 : ℚ) / 1000 * ((1 : ℚ) / (12 : ℚ))) = 72
    rw [show (853000 : ℚ) / 1000 * ((1 : ℚ) / (12 : ℚ)) = 853 / 12 by norm_num]
    rw [Int.ceil_eq_iff]
    norm_num

/-- C2 witness: the theorem instantiated at the scenario inputs, giving the
concrete value 72. -/
theorem convertGasPriceToTinyBars_correct_witness :
    convertGasPriceToTinyBars (some ⟨some 853000⟩) ⟨⟨1, 12⟩, ⟨1, 12⟩⟩ =
      gasPriceSpecFormula 853000 1 12 ∧
    convertGasPriceToTinyBars (some ⟨some 853000⟩) ⟨⟨1, 12⟩, ⟨1, 12⟩⟩ = 72 := by
  have h := convertGasPriceToTinyBars_correct ⟨some 853000⟩ 853000
    ⟨⟨1, 12⟩, ⟨1, 12⟩⟩ rfl
  exact ⟨h.1, h.2.1⟩

/-- When no entry of the transactionFeeSchedule list carries the contract
call functionality code together with a defined fees array, the scan falls
through to the not-found error. -/
theorem gasFeeLoop_notFound (rates : ExchangeRates)
    (tfs : List TransactionFeeSchedule)
    (h : ∀ s ∈ tfs, ∀ f fds, s.hederaFunctionality = some f →
      s.fees = some fds → f.code ≠ ETH_FUNCTIONALITY_CODE) :
    gasFeeLoop rates tfs = .error (mkError codeNotFoundMsg) := by
  induction tfs with
  | nil => rfl
  | cons s rest ih =>
    have hrest : ∀ s' ∈ rest, ∀ f fds, s'.hederaFunctionality = some f →
        s'.fees = some fds → f.code ≠ ETH_FUNCTIONALITY_CODE :=
      fun s' hs' => h s' (List.mem_cons_of_mem s hs')
    obtain ⟨hfOpt, feesOpt⟩ := s
    cases hfOpt with
    | none => cases feesOpt <;> simpa [gasFeeLoop] using ih hrest
    | some f =>
      cases feesOpt with
      | none => simpa [gasFeeLoop] using ih hrest
      | some fds =>
        have hne : f.code ≠ ETH_FUNCTIONALITY_CODE :=
          h _ (List.mem_cons_self _ _) f fds rfl rfl
        simpa [gasFeeLoop, hne] using ih hrest

/-- C1 counterexample: on a fee schedule whose matching contract-call entry
has a defined fees array but an undefined servicedata (absent fee-component
data), getTinyBarGasFee returns the fabricated DEFAULT_TINY_BAR_GAS constant
and does not fail, contradicting the claim that it raises
FunctionalityNotFound whenever the fee-component data is absent. -/
theorem getTinyBarGasFee_default_cex :
    getTinyBarGasFee missingServicedataSchedules sampleRates =
      .ok DEFAULT_TINY_BAR_GAS ∧
    ¬ ∃ e, getTinyBarGasFee missingServicedataSchedules sampleRates = .error e := by
  have hok : getTinyBarGasFee missingServicedataSchedules sampleRates =
      .ok DEFAULT_TINY_BAR_GAS := rfl
  refine ⟨hok, ?_⟩
  rintro ⟨e, he⟩
  rw [hok] at he
  cases he

/-- C1 amended: getTinyBarGasFee raises the invalid-format error when the
parsed schedule lacks a current section or its transactionFeeSchedule, and
the code-not-found error when no entry carries the contract-call
functionality code with a defined fees array; but when the first entry
matches and its first fee's servicedata is absent it silently returns the
DEFAULT_TINY_BAR_GAS constant instead of failing. -/
theorem getTinyBarGasFee_amended (fs : FeeSchedules) (rates : ExchangeRates) :
    (fs.current = none →
      getTinyBarGasFee fs rates = .error (mkError invalidFeeScheduleMsg)) ∧
    (∀ cur, fs.current = some cur → cur.transactionFeeSchedule = none →
      getTinyBarGasFee fs rates = .error (mkError invalidFeeScheduleMsg)) ∧
    (∀ cur tfs, fs.current = some cur → cur.transactionFeeSchedule = some tfs →
      (∀ s ∈ tfs, ∀ f fds, s.hederaFunctionality = some f →
        s.fees = some fds → f.code ≠ ETH_FUNCTIONALITY_CODE) →
      getTinyBarGasFee fs rates = .error (mkError codeNotFoundMsg)) ∧
    (∀ cur f fd fdsRest rest, fs.current = some cur →
      cur.transactionFeeSchedule =
        some ({ hederaFunctionality := some f, fees := some (fd :: fdsRest) } :: rest) →
      f.code = ETH_FUNCTIONALITY_CODE → fd.servicedata = none →
      getTinyBarGasFee fs rates = .ok DEFAULT_TINY_BAR_GAS) := by
  refine ⟨?_, ?_, ?_, ?_⟩
  · intro h
    simp [getTinyBarGasFee, h]
  · intro cur h1 h2
    simp [getTinyBarGasFee, h1, h2]
  · intro cur tfs h1 h2 h3
    simp [getTinyBarGasFee, h1, h2, gasFeeLoop_notFound rates tfs h3]
  · intro cur f fd fdsRest rest h1 h2 hcode hsd
    simp [getTinyBarGasFee, h1, h2, gasFeeLoop, hcode,
      convertGasPriceToTinyBars, hsd]

/-- C1 witness: the amended theorem at concrete inputs: a schedule without a
current section, a schedule whose only entry carries a non-matching code,
and the schedule with absent fee-component data. -/
theorem getTinyBarGasFee_amended_witness :
    getTinyBarGasFee ⟨none⟩ sampleRates =
      .error (mkError invalidFeeScheduleMsg) ∧
    getTinyBarGasFee ⟨some ⟨some [⟨some ⟨1⟩, some [⟨none⟩]⟩]⟩⟩ sampleRates =
      .error (mkError codeNotFoundMsg) ∧
    getTinyBarGasFee missingServicedataSchedules sampleRates =
      .ok DEFAULT_TINY_BAR_GAS := by
  refine ⟨(getTinyBarGasFee_amended ⟨none⟩ sampleRates).1 rfl, ?_, ?_⟩
  · refine (getTinyBarGasFee_amended _ sampleRates).2.2.1 _ _ rfl rfl ?_
    rintro s hs f fds h1 h2
    simp at hs
    subst hs
    simp at h1
    subst h1
    decide
  · exact (getTinyBarGasFee_amended missingServicedataSchedules sampleRates).2.2.2
      _ _ _ _ _ rfl rfl rfl rfl

/-- C3 counterexample: a query failing with native status 10 while its
_queryPayment is 5 tinybars records an observation whose cost is the payment
amount 5, not 0; and a failure carrying no status records the raw absent
status, not the unknown sentinel (which appears only in the debug log). -/
theorem executeQuery_failure_metrics_cex :
    (executeQuery (α := Unit) samplePaidQuery (.error sampleNativeErr)).1 =
      [{ mode := queryMode, type := "ContractCallQuery",
         status := some ⟨10⟩, cost := some 5 }] ∧
    some (5 : Int) ≠ some (0 : Int) ∧
    (executeQuery (α := Unit) ⟨"AccountBalanceQuery", none⟩
        (.error sampleStatuslessErr)).1 =
      [{ mode := queryMode, type := "AccountBalanceQuery",
         status := none, cost := none }] ∧
    (none : Option Status) ≠ some statusUnknown := by
  refine ⟨rfl, by decide, rfl, by decide⟩

/-- C3 amended: every failed query execution records exactly one metric
observation, whose status is the raw native status object (absent when the
failure carries none; the unknown sentinel is used only for logging) and
whose cost is the query's assessed payment amount (absent when unset, and
coerced to 0 only inside the recorder), not a constant 0. -/
theorem executeQuery_failure_metrics (α : Type) (q : QueryState) (e : JsErr) :
    (executeQuery (α := α) q (.error e)).1 =
      [{ mode := queryMode, type := q.name,
         status := e.status, cost := q.queryPayment }] := rfl

/-- C4 counterexample: a transaction submission failing with native status
10 (INSUFFICIENT_PAYER_BALANCE) records no metric observation at all at
submission time, refuting the claim that the TRANSACTION-mode histogram
receives exactly one observation with that status and cost 0. -/
theorem executeTransaction_no_metric_cex :
    (executeTransaction (α := Unit) "EthereumTransaction"
        (.error sampleNativeErr)).1 = [] ∧
    ¬ ∃ o, o ∈ (executeTransaction (α := Unit) "EthereumTransaction"
        (.error sampleNativeErr)).1 := by
  refine ⟨rfl, ?_⟩
  rintro ⟨o, ho⟩
  simp [executeTransaction] at ho

/-- C4 amended: query executions record exactly one observation per terminal
outcome, but a transaction submission records none — on a native-status
failure it surfaces one normalized error wrapping the native message, and
the TRANSACTION-mode observation with that status and cost 0 is recorded
only when the transaction record is subsequently requested and that
retrieval fails with the native status. -/
theorem transactionMetrics_amended (α : Type) (tt : String) (e : JsErr)
    (q : QueryState) (v : α) (resp : TransactionResponseState) (name : String)
    (he : errStatusTruthy e = true) (hr : resp.getRecord = some (.error e)) :
    (executeTransaction (α := α) tt (.error e)).1 = [] ∧
    (executeTransaction (α := α) tt (.error e)).2 = .error (mkError e.message) ∧
    (executeQuery q (.ok v)).1.length = 1 ∧
    (executeQuery (α := α) q (.error e)).1.length = 1 ∧
    (executeGetTransactionRecord resp name).1 =
      [{ mode := transactionMode, type := name,
         status := e.status, cost := some 0 }] ∧
    (executeGetTransactionRecord resp name).2 = .error (mkError e.message) := by
  refine ⟨rfl, ?_, rfl, rfl, ?_, ?_⟩
  · simp [executeTransaction, he]
  · simp [executeGetTransactionRecord, hr, he]
  · simp [executeGetTransactionRecord, hr, he]

/-- C4 witness: the amended theorem at the INSUFFICIENT_PAYER_BALANCE error
and a concrete response whose record retrieval fails with it. -/
theorem transactionMetrics_amended_witness :
    (executeTransaction (α := Unit) "EthereumTransaction"
        (.error sampleNativeErr)).1 = [] ∧
    (executeTransaction (α := Unit) "EthereumTransaction"
        (.error sampleNativeErr)).2 = .error (mkError sampleNativeErr.message) ∧
    (executeGetTransactionRecord sampleFailedRecordResp "EthereumTransaction").1 =
      [{ mode := transactionMode, type := "EthereumTransaction",
         status := some ⟨10⟩, cost := some 0 }] := by
  have h := transactionMetrics_amended Unit "EthereumTransaction" sampleNativeErr
    ⟨"AccountBalanceQuery", none⟩ () sampleFailedRecordResp "EthereumTransaction"
    (by decide) rfl
  exact ⟨h.1, h.2.1, h.2.2.2.2.1⟩

/-- C5: a native-origin failure (one carrying a truthy native status code)
of a query or transaction execution is re-raised as exactly one normalized
plain Error wrapping only the native message, with the native status, type
and stack discarded; successful executions return their value unchanged, so
no default value ever masks a native failure outside the metrics calls. -/
theorem executor_normalizes_native_failures (α : Type) (q : QueryState)
    (tt : String) (e : JsErr) (v : α) (he : errStatusTruthy e = true) :
    (executeQuery (α := α) q (.error e)).2 =
      .error { status := none, message := e.message, name := "Error", stack := "" } ∧
    (executeTransaction (α := α) tt (.error e)).2 =
      .error { status := none, message := e.message, name := "Error", stack := "" } ∧
    (executeQuery q (.ok v)).2 = .ok v ∧
    (executeTransaction tt (.ok v)).2 = .ok v := by
  refine ⟨?_, ?_, rfl, rfl⟩ <;> simp [executeQuery, executeTransaction, he, mkError]

/-- C5 witness: the normalization theorem at the concrete native error with
status code 10 and a trivial successful value. -/
theorem executor_normalizes_native_failures_witness :
    (executeQuery (α := Unit) samplePaidQuery (.error sampleNativeErr)).2 =
      .error { status := none, message := sampleNativeErr.message,
               name := "Error", stack := "" } ∧
    (executeTransaction (α := Unit) "EthereumTransaction" (.ok ())).2 = .ok () := by
  have h := executor_normalizes_native_failures Unit samplePaidQuery
    "EthereumTransaction" sampleNativeErr () (by decide)
  exact ⟨h.1, h.2.2.2⟩

/-- C7: submitContractCallQuery resolves a to-address whose pruned form
starts with eleven zero characters via ContractId.fromSolidityAddress and
any other address via ContractId.fromEvmAddress(0, 0, _), and in both
branches the query handed to executeQuery carries the payment obtained from
the prior getCost round-trip. -/
theorem submitContractCallQuery_correct (toAddr data : JStr) (gas : Int)
    (op : Option AccountId) (cost : Int) :
    (startsWithElevenZeros (prune0x toAddr) = true →
      (submitContractCallQuery toAddr data gas op cost).contractId =
        ContractIdRef.fromSolidityAddress (prune0x toAddr)) ∧
    (startsWithElevenZeros (prune0x toAddr) = false →
      (submitContractCallQuery toAddr data gas op cost).contractId =
        ContractIdRef.fromEvmAddress 0 0 (prune0x toAddr)) ∧
    (submitContractCallQuery toAddr data gas op cost).queryPayment = some cost := by
  refine ⟨fun h => ?_, fun h => ?_, rfl⟩ <;> simp [submitContractCallQuery, h]

/-- C7 witness: both resolution branches and the payment, at a concrete
address with eleven leading zeros after the prefix and at a plain evm
address. -/
theorem submitContractCallQuery_correct_witness :
    (submitContractCallQuery sampleSolidityAddr ['a', 'b'] 75000
        (some ⟨2⟩) 33).contractId =
      ContractIdRef.fromSolidityAddress (prune0x sampleSolidityAddr) ∧
    (submitContractCallQuery ['a', 'b'] ['a', 'b'] 75000
        (some ⟨2⟩) 33).contractId =
      ContractIdRef.fromEvmAddress 0 0 (prune0x ['a', 'b']) ∧
    (submitContractCallQuery sampleSolidityAddr ['a', 'b'] 75000
        (some ⟨2⟩) 33).queryPayment = some 33 := by
  have h1 := submitContractCallQuery_correct sampleSolidityAddr ['a', 'b']
    75000 (some ⟨2⟩) 33
  have h2 := submitContractCallQuery_correct ['a', 'b'] ['a', 'b']
    75000 (some ⟨2⟩) 33
  exact ⟨h1.1 (by decide), h2.2.1 (by decide), h1.2.2⟩

/-- C8: executeGetTransactionRecord records the TRANSACTION-mode observation
at record-retrieval time using the record's assessed fee on success; when
the response object does not support record retrieval it fails with the
invalid-response-format plain error, which carries no native status and is
recorded in no metric observation, distinguishing it from a
network-reported failure status. -/
theorem executeGetTransactionRecord_correct (resp : TransactionResponseState)
    (name : String) :
    (resp.getRecord = none →
      (executeGetTransactionRecord resp name).1 = [] ∧
      (executeGetTransactionRecord resp name).2 =
        .error (mkError ("Invalid response format, expected record availability: "
          ++ resp.jsonRepr)) ∧
      ∀ e, (executeGetTransactionRecord resp name).2 = .error e →
        e.status = none) ∧
    (∀ record, resp.getRecord = some (.ok record) →
      (executeGetTransactionRecord resp name).1 =
        [{ mode := transactionMode, type := name,
           status := some record.receiptStatus,
           cost := some record.transactionFee }]) := by
  constructor
  · intro h
    have h2 : (executeGetTransactionRecord resp name).2 =
        .error (mkError ("Invalid response format, expected record availability: "
          ++ resp.jsonRepr)) := by
      simp [executeGetTransactionRecord, h]
    refine ⟨by simp [executeGetTransactionRecord, h], h2, ?_⟩
    intro e he
    rw [h2] at he
    injection he with h3
    subst h3
    rfl
  · intro record h
    simp [executeGetTransactionRecord, h]

/-- C8 witness: the theorem at a response without record support and at a
response whose record succeeds with receipt status 22 and fee 7. -/
theorem executeGetTransactionRecord_correct_witness :
    (executeGetTransactionRecord ⟨"resp json", none⟩ "EthereumTransaction").1 = [] ∧
    (executeGetTransactionRecord ⟨"resp json", none⟩ "EthereumTransaction").2 =
      .error (mkError
        "Invalid response format, expected record availability: resp json") ∧
    (executeGetTransactionRecord ⟨"resp json", some (.ok ⟨⟨22⟩, 7⟩)⟩
        "EthereumTransaction").1 =
      [{ mode := transactionMode, type := "EthereumTransaction",
         status := some ⟨22⟩, cost := some 7 }] := by
  have h1 := (executeGetTransactionRecord_correct ⟨"resp json", none⟩
    "EthereumTransaction").1 rfl
  have h2 := (executeGetTransactionRecord_correct
    ⟨"resp json", some (.ok ⟨⟨22⟩, 7⟩)⟩ "EthereumTransaction").2 ⟨⟨22⟩, 7⟩ rfl
  exact ⟨h1.1, h1.2.1, h2⟩

/-- C9: every captureMetrics call emits exactly one histogram observation,
with the cost coerced to 0 when the argument is absent (or falsy 0), and
exactly one operator-balance gauge decrement by the raw, possibly absent,
cost argument — so the gauge is mutated on every observed operation, not
only by the pull-based collect refresh. -/
theorem captureMetrics_events (mode : String) (type : String)
    (status : Option Status) (cost : Option Int) :
    captureMetrics mode type status cost =
      [MetricEvent.histObserve mode type status (cost.getD 0),
       MetricEvent.gaugeDec mode type cost] ∧
    (captureMetrics mode type status cost).length = 2 := by
  constructor
  · cases cost with
    | none => rfl
    | some c =>
      by_cases hc : c = 0
      · subst hc
        rfl
      · simp [captureMetrics, hc]
  · rfl

end HederaRelay
